import Mathlib

/-!
Verification of the ipv4 endpoint layer (endpoint.go).

The file embeds the Go source shallowly in Lean:
  - Go pointer and interface values that may be nil become `Option`.
  - Errors are an inductive type; a Go `error` result becomes `Option Err`
    where `none` is the nil (success) error.
  - The platform collaborators (descriptor resolution, the socket-option
    setter, the header-prepend primitive, the wrapped connection methods)
    are an explicit `OS` record of response functions; every method of the
    embedding additionally returns the list of OS calls it performed, so
    that absence of OS interaction is a provable statement.
  - A Go panic (failed type assertion) is the `Outcome.panic` constructor.
-/

set_option autoImplicit false

namespace IPv4

/-- An opaque identifier of a concrete OS-level connection object. -/
abbrev ConnId := Nat

/-- File descriptors as returned by descriptor resolution. -/
abbrev Fd := Nat

/-- Instants passed to the deadline setters; the code never inspects them. -/
abbrev Time := Nat

/-- ControlFlags is an opaque bit set of requested control-message classes. -/
abbrev ControlFlags := Nat

/-- Errors: EINVAL (syscall.EINVAL, the invalid-argument guard error) and
opaque OS-collaborator errors. -/
inductive Err where
  | EINVAL : Err
  | os : Nat → Err
deriving DecidableEq, Repr

/-- The dynamic (concrete) type of a connection value stored in a Go
interface: a UDP connection, a raw IP connection, or a user-defined type
that implements net.PacketConn but not net.Conn. -/
inductive ConnKind where
  | udp : ConnKind
  | ipc : ConnKind
  | custom : ConnKind
deriving DecidableEq, Repr

/-- A non-nil Go interface value holding a connection: its dynamic type and
the pointer it carries (which may itself be a typed nil pointer). A Go
interface variable of type net.Conn or net.PacketConn is `Option IfaceVal`,
with `none` for the nil interface. -/
structure IfaceVal where
  kind : ConnKind
  ptr : Option ConnId
deriving DecidableEq, Repr

/-- Outcome of a Go computation that can panic (failed type assertion). -/
inductive Outcome (α : Type) where
  | ok : α → Outcome α
  | panic : Outcome α
deriving DecidableEq, Repr

/-- The Go type assertion `c.(net.Conn)` applied to a net.PacketConn value:
panics on the nil interface and on a dynamic type that does not implement
net.Conn (the custom kind); otherwise yields the same interface value. -/
def assertNetConn (c : Option IfaceVal) : Outcome IfaceVal :=
  match c with
  | none => Outcome.panic
  | some w => if w.kind = ConnKind.custom then Outcome.panic else Outcome.ok w

/-- The Go type assertion `c.(*net.IPConn)`: panics unless the dynamic type
is exactly the raw IP connection type; yields the carried pointer. -/
def assertIPConn (c : Option IfaceVal) : Outcome (Option ConnId) :=
  match c with
  | some w => if w.kind = ConnKind.ipc then Outcome.ok w.ptr else Outcome.panic
  | none => Outcome.panic

/-- One OS interaction performed by the endpoint layer. Deadline kinds:
0 = SetDeadline, 1 = SetReadDeadline, 2 = SetWriteDeadline. -/
inductive OSCall where
  | sysfdP : Option IfaceVal → OSCall
  | sysfdR : Option ConnId → OSCall
  | setOpt : Fd → ControlFlags → Bool → OSCall
  | pDeadline : Nat → Option IfaceVal → Time → OSCall
  | rDeadline : Nat → Option ConnId → Time → OSCall
  | pClose : Option IfaceVal → OSCall
  | rClose : Option ConnId → OSCall
  | headerPrepend : Fd → Bool → OSCall
deriving DecidableEq, Repr

/-- The OS collaborator: response functions for every primitive the endpoint
layer consumes (spec section 6). Each function decides the result of one
kind of call; the endpoint layer treats them as opaque. -/
structure OS where
  sysfdP : Option IfaceVal → Except Err Fd
  sysfdR : Option ConnId → Except Err Fd
  setOpt : Fd → ControlFlags → Bool → Option Err
  pDeadline : Nat → Option IfaceVal → Time → Option Err
  rDeadline : Nat → Option ConnId → Time → Option Err
  pClose : Option IfaceVal → Option Err
  rClose : Option ConnId → Option Err
  headerPrepend : Fd → Bool → Option Err

/-- genericOpt from endpoint.go: holds a net.Conn reference. -/
structure genericOpt where
  c : Option IfaceVal
deriving DecidableEq, Repr

/-- `func (c *genericOpt) ok() bool { return c != nil && c.c != nil }`,
including the nil-receiver case, so the receiver is an Option. -/
def genericOpt.ok : Option genericOpt → Bool
  | none => false
  | some g => g.c.isSome

/-- dgramOpt from endpoint.go: holds a net.PacketConn reference. -/
structure dgramOpt where
  c : Option IfaceVal
deriving DecidableEq, Repr

/-- `func (c *dgramOpt) ok() bool { return c != nil && c.c != nil }`. -/
def dgramOpt.ok : Option dgramOpt → Bool
  | none => false
  | some g => g.c.isSome

/-- Modelled from the spec: the PayloadControlHandler (sections 2, 4.2),
whose Go definition (payloadHandler) is not under src/; endpoint.go shows it
holds the packet connection and a mutable raw option state, with methods ok
and sysfd. -/
structure payloadHandler where
  c : Option IfaceVal
  rawOpt : ControlFlags
deriving DecidableEq, Repr

/-- Modelled from the spec (section 4.1): readiness of the payload handler,
true iff the handler reference and its wrapped connection are non-nil. -/
def payloadHandler.ok : Option payloadHandler → Bool
  | none => false
  | some h => h.c.isSome

/-- Modelled from the spec (section 4.2): descriptor resolution for the
payload handler delegates to the OS collaborator on the stored connection. -/
def payloadHandler.sysfd (os : OS) (h : payloadHandler) : Except Err Fd :=
  os.sysfdP h.c

/-- Modelled from the spec: the PacketControlHandler (sections 2, 4.2),
whose Go definition (packetHandler) is not under src/; endpoint.go shows it
holds a raw IP connection pointer and a mutable raw option state. -/
structure packetHandler where
  c : Option ConnId
  rawOpt : ControlFlags
deriving DecidableEq, Repr

/-- Modelled from the spec (section 4.1): readiness of the packet handler. -/
def packetHandler.ok : Option packetHandler → Bool
  | none => false
  | some h => h.c.isSome

/-- Modelled from the spec (section 4.2): descriptor resolution for the
packet handler. -/
def packetHandler.sysfd (os : OS) (h : packetHandler) : Except Err Fd :=
  os.sysfdR h.c

/-- The pure flag update performed on the raw option state by a successful
OS option change: enabling unions the requested classes in, disabling
removes them. -/
def applyControlFlags (r cf : ControlFlags) (onv : Bool) : ControlFlags :=
  if onv then r ||| cf else r ^^^ (r &&& cf)

/-- Modelled from the spec: the platform collaborator setControlMessage
(sections 4.2, 6), not under src/. It asks the OS to apply or clear the
requested control-message classes on the descriptor; on success it updates
the raw option state passed by reference, on failure it leaves the state
unchanged and surfaces the OS error unmodified. Returns the new raw option
state paired with the error result. -/
def setControlMessage (os : OS) (fd : Fd) (r : ControlFlags) (cf : ControlFlags)
    (onv : Bool) : ControlFlags × Option Err :=
  match os.setOpt fd cf onv with
  | none => (applyControlFlags r cf onv, none)
  | some e => (r, some e)

/-- Conn from endpoint.go. -/
structure Conn where
  genericOpt : genericOpt
deriving DecidableEq, Repr

/-- NewConn from endpoint.go. -/
def NewConn (c : Option IfaceVal) : Conn :=
  { genericOpt := { c := c } }

/-- PacketConn from endpoint.go. -/
structure PacketConn where
  genericOpt : genericOpt
  dgramOpt : dgramOpt
  payloadHandler : payloadHandler
deriving DecidableEq, Repr

/-- NewPacketConn from endpoint.go: the unchecked downcast `c.(net.Conn)`
is performed for the genericOpt field; the payload handler starts with the
zero raw option state. -/
def NewPacketConn (c : Option IfaceVal) : Outcome PacketConn :=
  match assertNetConn c with
  | Outcome.panic => Outcome.panic
  | Outcome.ok w =>
      Outcome.ok
        { genericOpt := { c := some w }
          dgramOpt := { c := c }
          payloadHandler := { c := c, rawOpt := 0 } }

/-- PacketConn.SetControlMessage from endpoint.go. Every method returns the
updated receiver, the Go error result, and the list of OS calls made. -/
def PacketConn.SetControlMessage (os : OS) (c : PacketConn) (cf : ControlFlags)
    (onv : Bool) : PacketConn × Option Err × List OSCall :=
  if payloadHandler.ok (some c.payloadHandler) = false then
    (c, some Err.EINVAL, [])
  else
    match c.payloadHandler.sysfd os with
    | Except.error e => (c, some e, [OSCall.sysfdP c.payloadHandler.c])
    | Except.ok fd =>
        let p := setControlMessage os fd c.payloadHandler.rawOpt cf onv
        ({ c with payloadHandler := { c.payloadHandler with rawOpt := p.1 } },
          p.2,
          [OSCall.sysfdP c.payloadHandler.c, OSCall.setOpt fd cf onv])

/-- PacketConn.SetDeadline from endpoint.go. -/
def PacketConn.SetDeadline (os : OS) (c : PacketConn) (t : Time) :
    PacketConn × Option Err × List OSCall :=
  if payloadHandler.ok (some c.payloadHandler) = false then
    (c, some Err.EINVAL, [])
  else
    (c, os.pDeadline 0 c.payloadHandler.c t, [OSCall.pDeadline 0 c.payloadHandler.c t])

/-- PacketConn.SetReadDeadline from endpoint.go. -/
def PacketConn.SetReadDeadline (os : OS) (c : PacketConn) (t : Time) :
    PacketConn × Option Err × List OSCall :=
  if payloadHandler.ok (some c.payloadHandler) = false then
    (c, some Err.EINVAL, [])
  else
    (c, os.pDeadline 1 c.payloadHandler.c t, [OSCall.pDeadline 1 c.payloadHandler.c t])

/-- PacketConn.SetWriteDeadline from endpoint.go. -/
def PacketConn.SetWriteDeadline (os : OS) (c : PacketConn) (t : Time) :
    PacketConn × Option Err × List OSCall :=
  if payloadHandler.ok (some c.payloadHandler) = false then
    (c, some Err.EINVAL, [])
  else
    (c, os.pDeadline 2 c.payloadHandler.c t, [OSCall.pDeadline 2 c.payloadHandler.c t])

/-- PacketConn.Close from endpoint.go. -/
def PacketConn.Close (os : OS) (c : PacketConn) :
    PacketConn × Option Err × List OSCall :=
  if payloadHandler.ok (some c.payloadHandler) = false then
    (c, some Err.EINVAL, [])
  else
    (c, os.pClose c.payloadHandler.c, [OSCall.pClose c.payloadHandler.c])

/-- RawConn from endpoint.go. -/
structure RawConn where
  genericOpt : genericOpt
  dgramOpt : dgramOpt
  packetHandler : packetHandler
deriving DecidableEq, Repr

/-- RawConn.SetControlMessage from endpoint.go. -/
def RawConn.SetControlMessage (os : OS) (c : RawConn) (cf : ControlFlags)
    (onv : Bool) : RawConn × Option Err × List OSCall :=
  if packetHandler.ok (some c.packetHandler) = false then
    (c, some Err.EINVAL, [])
  else
    match c.packetHandler.sysfd os with
    | Except.error e => (c, some e, [OSCall.sysfdR c.packetHandler.c])
    | Except.ok fd =>
        let p := setControlMessage os fd c.packetHandler.rawOpt cf onv
        ({ c with packetHandler := { c.packetHandler with rawOpt := p.1 } },
          p.2,
          [OSCall.sysfdR c.packetHandler.c, OSCall.setOpt fd cf onv])

/-- RawConn.SetDeadline from endpoint.go. -/
def RawConn.SetDeadline (os : OS) (c : RawConn) (t : Time) :
    RawConn × Option Err × List OSCall :=
  if packetHandler.ok (some c.packetHandler) = false then
    (c, some Err.EINVAL, [])
  else
    (c, os.rDeadline 0 c.packetHandler.c t, [OSCall.rDeadline 0 c.packetHandler.c t])

/-- RawConn.SetReadDeadline from endpoint.go. -/
def RawConn.SetReadDeadline (os : OS) (c : RawConn) (t : Time) :
    RawConn × Option Err × List OSCall :=
  if packetHandler.ok (some c.packetHandler) = false then
    (c, some Err.EINVAL, [])
  else
    (c, os.rDeadline 1 c.packetHandler.c t, [OSCall.rDeadline 1 c.packetHandler.c t])

/-- RawConn.SetWriteDeadline from endpoint.go. -/
def RawConn.SetWriteDeadline (os : OS) (c : RawConn) (t : Time) :
    RawConn × Option Err × List OSCall :=
  if packetHandler.ok (some c.packetHandler) = false then
    (c, some Err.EINVAL, [])
  else
    (c, os.rDeadline 2 c.packetHandler.c t, [OSCall.rDeadline 2 c.packetHandler.c t])

/-- RawConn.Close from endpoint.go. -/
def RawConn.Close (os : OS) (c : RawConn) :
    RawConn × Option Err × List OSCall :=
  if packetHandler.ok (some c.packetHandler) = false then
    (c, some Err.EINVAL, [])
  else
    (c, os.rClose c.packetHandler.c, [OSCall.rClose c.packetHandler.c])

/-- NewRawConn from endpoint.go: performs the two unchecked downcasts while
building the record, then resolves the descriptor and enables IPv4 header
prepending; either step failing aborts with nil RawConn and that error. -/
def NewRawConn (os : OS) (c : Option IfaceVal) :
    Outcome (Option RawConn × Option Err × List OSCall) :=
  match assertNetConn c with
  | Outcome.panic => Outcome.panic
  | Outcome.ok w =>
      match assertIPConn c with
      | Outcome.panic => Outcome.panic
      | Outcome.ok p =>
          let r : RawConn :=
            { genericOpt := { c := some w }
              dgramOpt := { c := c }
              packetHandler := { c := p, rawOpt := 0 } }
          match r.packetHandler.sysfd os with
          | Except.error e => Outcome.ok (none, some e, [OSCall.sysfdR p])
          | Except.ok fd =>
              match os.headerPrepend fd true with
              | some e =>
                  Outcome.ok
                    (none, some e, [OSCall.sysfdR p, OSCall.headerPrepend fd true])
              | none =>
                  Outcome.ok
                    (some r, none, [OSCall.sysfdR p, OSCall.headerPrepend fd true])

/-- A concrete non-nil UDP connection value, used by witnesses. -/
def udpVal : IfaceVal := { kind := ConnKind.udp, ptr := some 1 }

/-- A concrete non-nil raw IP connection value, used by witnesses. -/
def ipcVal : IfaceVal := { kind := ConnKind.ipc, ptr := some 2 }

/-- A ready PacketConn with a nonzero recorded raw option state. -/
def pcReady : PacketConn :=
  { genericOpt := { c := some udpVal }
    dgramOpt := { c := some udpVal }
    payloadHandler := { c := some udpVal, rawOpt := 5 } }

/-- A ready RawConn with a nonzero recorded raw option state. -/
def rcReady : RawConn :=
  { genericOpt := { c := some ipcVal }
    dgramOpt := { c := some ipcVal }
    packetHandler := { c := some 2, rawOpt := 5 } }

/-- An OS collaborator that accepts every request. -/
def osOK : OS where
  sysfdP := fun _ => Except.ok 4
  sysfdR := fun _ => Except.ok 6
  setOpt := fun _ _ _ => none
  pDeadline := fun _ _ _ => none
  rDeadline := fun _ _ _ => none
  pClose := fun _ => none
  rClose := fun _ => none
  headerPrepend := fun _ _ => none

/-- An OS collaborator whose option setter rejects every request. -/
def osSetOptFail : OS :=
  { osOK with setOpt := fun _ _ _ => some (Err.os 3) }

/-- An OS collaborator whose descriptor resolution fails. -/
def osSysfdFail : OS :=
  { osOK with
      sysfdP := fun _ => Except.error (Err.os 7)
      sysfdR := fun _ => Except.error (Err.os 8) }

/-- An OS collaborator whose header-prepend enablement fails. -/
def osPrependFail : OS :=
  { osOK with headerPrepend := fun _ _ => some (Err.os 9) }

/-- C1: every public facade method on PacketConn and RawConn returns EINVAL
with no OS interaction when the relevant control handler ok check fails, and
otherwise delegates verbatim (exactly the delegated OS calls, no retry, and
no state change beyond the raw option update of SetControlMessage). -/
theorem facade_guard_and_delegate (os : OS) (pc : PacketConn) (rc : RawConn)
    (cf : ControlFlags) (onv : Bool) (t : Time) :
    (PacketConn.SetControlMessage os pc cf onv =
      if payloadHandler.ok (some pc.payloadHandler) then
        match pc.payloadHandler.sysfd os with
        | Except.error e => (pc, some e, [OSCall.sysfdP pc.payloadHandler.c])
        | Except.ok fd =>
            ({ pc with payloadHandler :=
                { pc.payloadHandler with
                    rawOpt := (setControlMessage os fd pc.payloadHandler.rawOpt cf onv).1 } },
              (setControlMessage os fd pc.payloadHandler.rawOpt cf onv).2,
              [OSCall.sysfdP pc.payloadHandler.c, OSCall.setOpt fd cf onv])
      else (pc, some Err.EINVAL, [])) ∧
    (PacketConn.SetDeadline os pc t =
      if payloadHandler.ok (some pc.payloadHandler) then
        (pc, os.pDeadline 0 pc.payloadHandler.c t, [OSCall.pDeadline 0 pc.payloadHandler.c t])
      else (pc, some Err.EINVAL, [])) ∧
    (PacketConn.SetReadDeadline os pc t =
      if payloadHandler.ok (some pc.payloadHandler) then
        (pc, os.pDeadline 1 pc.payloadHandler.c t, [OSCall.pDeadline 1 pc.payloadHandler.c t])
      else (pc, some Err.EINVAL, [])) ∧
    (PacketConn.SetWriteDeadline os pc t =
      if payloadHandler.ok (some pc.payloadHandler) then
        (pc, os.pDeadline 2 pc.payloadHandler.c t, [OSCall.pDeadline 2 pc.payloadHandler.c t])
      else (pc, some Err.EINVAL, [])) ∧
    (PacketConn.Close os pc =
      if payloadHandler.ok (some pc.payloadHandler) then
        (pc, os.pClose pc.payloadHandler.c, [OSCall.pClose pc.payloadHandler.c])
      else (pc, some Err.EINVAL, [])) ∧
    (RawConn.SetControlMessage os rc cf onv =
      if packetHandler.ok (some rc.packetHandler) then
        match rc.packetHandler.sysfd os with
        | Except.error e => (rc, some e, [OSCall.sysfdR rc.packetHandler.c])
        | Except.ok fd =>
            ({ rc with packetHandler :=
                { rc.packetHandler with
                    rawOpt := (setControlMessage os fd rc.packetHandler.rawOpt cf onv).1 } },
              (setControlMessage os fd rc.packetHandler.rawOpt cf onv).2,
              [OSCall.sysfdR rc.packetHandler.c, OSCall.setOpt fd cf onv])
      else (rc, some Err.EINVAL, [])) ∧
    (RawConn.SetDeadline os rc t =
      if packetHandler.ok (some rc.packetHandler) then
        (rc, os.rDeadline 0 rc.packetHandler.c t, [OSCall.rDeadline 0 rc.packetHandler.c t])
      else (rc, some Err.EINVAL, [])) ∧
    (RawConn.SetReadDeadline os rc t =
      if packetHandler.ok (some rc.packetHandler) then
        (rc, os.rDeadline 1 rc.packetHandler.c t, [OSCall.rDeadline 1 rc.packetHandler.c t])
      else (rc, some Err.EINVAL, [])) ∧
    (RawConn.SetWriteDeadline os rc t =
      if packetHandler.ok (some rc.packetHandler) then
        (rc, os.rDeadline 2 rc.packetHandler.c t, [OSCall.rDeadline 2 rc.packetHandler.c t])
      else (rc, some Err.EINVAL, [])) ∧
    (RawConn.Close os rc =
      if packetHandler.ok (some rc.packetHandler) then
        (rc, os.rClose rc.packetHandler.c, [OSCall.rClose rc.packetHandler.c])
      else (rc, some Err.EINVAL, [])) := by
  cases hp : payloadHandler.ok (some pc.payloadHandler) <;>
    cases hr : packetHandler.ok (some rc.packetHandler) <;>
      refine ⟨?_, ?_, ?_, ?_, ?_, ?_, ?_, ?_, ?_, ?_⟩ <;>
        simp [PacketConn.SetControlMessage, PacketConn.SetDeadline,
          PacketConn.SetReadDeadline, PacketConn.SetWriteDeadline,
          PacketConn.Close, RawConn.SetControlMessage, RawConn.SetDeadline,
          RawConn.SetReadDeadline, RawConn.SetWriteDeadline, RawConn.Close,
          hp, hr]

/-- C6: the readiness predicate ok on genericOpt and dgramOpt is true iff
the handle reference itself is non-nil and its wrapped connection reference
is non-nil; it is a pure function of the handle (no side effects). -/
theorem ok_iff_handle_and_conn_nonnil (g : Option genericOpt) (d : Option dgramOpt) :
    (genericOpt.ok g = true ↔ ∃ x, g = some x ∧ ∃ w, x.c = some w) ∧
    (dgramOpt.ok d = true ↔ ∃ x, d = some x ∧ ∃ w, x.c = some w) := by
  constructor
  · cases g with
    | none => simp [genericOpt.ok]
    | some x => simp [genericOpt.ok, Option.isSome_iff_exists]
  · cases d with
    | none => simp [dgramOpt.ok]
    | some x => simp [dgramOpt.ok, Option.isSome_iff_exists]

/-- C2 counterexample: calling NewPacketConn with the nil underlying
connection does not return an Endpoint value at all; the unchecked downcast
of the nil interface panics. -/
theorem NewPacketConn_nil_panics : NewPacketConn none = Outcome.panic := rfl

/-- C2 amended: NewConn with a nil underlying connection returns a Conn
whose readiness guard is false (so every guarded method fails with the
invalid-argument error before any OS interaction), while NewPacketConn and
NewRawConn panic on the nil underlying connection instead of returning an
Endpoint. -/
theorem constructors_on_nil_conn :
    genericOpt.ok (some (NewConn none).genericOpt) = false ∧
    NewPacketConn none = Outcome.panic ∧
    ∀ os : OS, NewRawConn os none = Outcome.panic := by
  refine ⟨rfl, rfl, fun os => rfl⟩

/-- C3: NewRawConn is atomic on every input that passes its casts (a raw IP
connection carrying pointer p): either descriptor resolution and header
prepend enablement both succeed and the fully built RawConn is returned with
a nil error, or the failing step's error is returned with a nil RawConn, and
no OS call is made after the failing step. -/
theorem NewRawConn_atomic (os : OS) (p : Option ConnId) :
    (∃ fd, os.sysfdR p = Except.ok fd ∧ os.headerPrepend fd true = none ∧
      NewRawConn os (some { kind := ConnKind.ipc, ptr := p }) =
        Outcome.ok
          (some { genericOpt := { c := some { kind := ConnKind.ipc, ptr := p } }
                  dgramOpt := { c := some { kind := ConnKind.ipc, ptr := p } }
                  packetHandler := { c := p, rawOpt := 0 } },
            none, [OSCall.sysfdR p, OSCall.headerPrepend fd true])) ∨
    (∃ e, os.sysfdR p = Except.error e ∧
      NewRawConn os (some { kind := ConnKind.ipc, ptr := p }) =
        Outcome.ok (none, some e, [OSCall.sysfdR p])) ∨
    (∃ fd e, os.sysfdR p = Except.ok fd ∧ os.headerPrepend fd true = some e ∧
      NewRawConn os (some { kind := ConnKind.ipc, ptr := p }) =
        Outcome.ok (none, some e, [OSCall.sysfdR p, OSCall.headerPrepend fd true])) := by
  cases h1 : os.sysfdR p with
  | error e =>
      refine Or.inr (Or.inl ⟨e, rfl, ?_⟩)
      simp [NewRawConn, assertNetConn, assertIPConn, packetHandler.sysfd, h1]
  | ok fd =>
      cases h2 : os.headerPrepend fd true with
      | none =>
          refine Or.inl ⟨fd, rfl, h2, ?_⟩
          simp [NewRawConn, assertNetConn, assertIPConn, packetHandler.sysfd, h1, h2]
      | some e =>
          refine Or.inr (Or.inr ⟨fd, e, rfl, h2, ?_⟩)
          simp [NewRawConn, assertNetConn, assertIPConn, packetHandler.sysfd, h1, h2]

/-- C9: NewPacketConn and NewRawConn perform unchecked downcasts: a
connection of the wrong concrete kind makes the constructor panic rather
than return a reported error (here: a custom net.PacketConn implementation
that is not a net.Conn, and a UDP connection that is not a raw IP
connection). -/
theorem constructors_unchecked_downcast (os : OS) (p q : Option ConnId) :
    NewPacketConn (some { kind := ConnKind.custom, ptr := q }) = Outcome.panic ∧
    NewRawConn os (some { kind := ConnKind.udp, ptr := p }) = Outcome.panic := by
  constructor
  · simp [NewPacketConn, assertNetConn]
  · simp [NewRawConn, assertNetConn, assertIPConn]

/-- C10: every public method of PacketConn and RawConn reads and writes only
its own control handler: two receivers sharing the control handler but with
arbitrary genericOpt and dgramOpt fields produce the same error, the same OS
calls and the same evolved handler, and no method modifies the genericOpt or
dgramOpt field of its receiver. -/
theorem methods_depend_only_on_control_handler (os : OS)
    (g1 g2 : genericOpt) (d1 d2 : dgramOpt) (ph : payloadHandler)
    (rh : packetHandler) (cf : ControlFlags) (onv : Bool) (t : Time) :
    (∃ ph2 r tr,
      PacketConn.SetControlMessage os (PacketConn.mk g1 d1 ph) cf onv =
        (PacketConn.mk g1 d1 ph2, r, tr) ∧
      PacketConn.SetControlMessage os (PacketConn.mk g2 d2 ph) cf onv =
        (PacketConn.mk g2 d2 ph2, r, tr)) ∧
    (∃ r tr,
      PacketConn.SetDeadline os (PacketConn.mk g1 d1 ph) t =
        (PacketConn.mk g1 d1 ph, r, tr) ∧
      PacketConn.SetDeadline os (PacketConn.mk g2 d2 ph) t =
        (PacketConn.mk g2 d2 ph, r, tr)) ∧
    (∃ r tr,
      PacketConn.SetReadDeadline os (PacketConn.mk g1 d1 ph) t =
        (PacketConn.mk g1 d1 ph, r, tr) ∧
      PacketConn.SetReadDeadline os (PacketConn.mk g2 d2 ph) t =
        (PacketConn.mk g2 d2 ph, r, tr)) ∧
    (∃ r tr,
      PacketConn.SetWriteDeadline os (PacketConn.mk g1 d1 ph) t =
        (PacketConn.mk g1 d1 ph, r, tr) ∧
      PacketConn.SetWriteDeadline os (PacketConn.mk g2 d2 ph) t =
        (PacketConn.mk g2 d2 ph, r, tr)) ∧
    (∃ r tr,
      PacketConn.Close os (PacketConn.mk g1 d1 ph) =
        (PacketConn.mk g1 d1 ph, r, tr) ∧
      PacketConn.Close os (PacketConn.mk g2 d2 ph) =
        (PacketConn.mk g2 d2 ph, r, tr)) ∧
    (∃ rh2 r tr,
      RawConn.SetControlMessage os (RawConn.mk g1 d1 rh) cf onv =
        (RawConn.mk g1 d1 rh2, r, tr) ∧
      RawConn.SetControlMessage os (RawConn.mk g2 d2 rh) cf onv =
        (RawConn.mk g2 d2 rh2, r, tr)) ∧
    (∃ r tr,
      RawConn.SetDeadline os (RawConn.mk g1 d1 rh) t = (RawConn.mk g1 d1 rh, r, tr) ∧
      RawConn.SetDeadline os (RawConn.mk g2 d2 rh) t = (RawConn.mk g2 d2 rh, r, tr)) ∧
    (∃ r tr,
      RawConn.SetReadDeadline os (RawConn.mk g1 d1 rh) t =
        (RawConn.mk g1 d1 rh, r, tr) ∧
      RawConn.SetReadDeadline os (RawConn.mk g2 d2 rh) t =
        (RawConn.mk g2 d2 rh, r, tr)) ∧
    (∃ r tr,
      RawConn.SetWriteDeadline os (RawConn.mk g1 d1 rh) t =
        (RawConn.mk g1 d1 rh, r, tr) ∧
      RawConn.SetWriteDeadline os (RawConn.mk g2 d2 rh) t =
        (RawConn.mk g2 d2 rh, r, tr)) ∧
    (∃ r tr,
      RawConn.Close os (RawConn.mk g1 d1 rh) = (RawConn.mk g1 d1 rh, r, tr) ∧
      RawConn.Close os (RawConn.mk g2 d2 rh) = (RawConn.mk g2 d2 rh, r, tr)) := by
  refine ⟨?_, ?_, ?_, ?_, ?_, ?_, ?_, ?_, ?_, ?_⟩
  · cases hok : payloadHandler.ok (some ph) with
    | false =>
        exact ⟨ph, some Err.EINVAL, [],
          by simp [PacketConn.SetControlMessage, hok],
          by simp [PacketConn.SetControlMessage, hok]⟩
    | true =>
        cases hfd : os.sysfdP ph.c with
        | error e =>
            exact ⟨ph, some e, [OSCall.sysfdP ph.c],
              by simp [PacketConn.SetControlMessage, payloadHandler.sysfd, hok, hfd],
              by simp [PacketConn.SetControlMessage, payloadHandler.sysfd, hok, hfd]⟩
        | ok fd =>
            exact ⟨{ ph with rawOpt := (setControlMessage os fd ph.rawOpt cf onv).1 },
              (setControlMessage os fd ph.rawOpt cf onv).2,
              [OSCall.sysfdP ph.c, OSCall.setOpt fd cf onv],
              by simp [PacketConn.SetControlMessage, payloadHandler.sysfd, hok, hfd],
              by simp [PacketConn.SetControlMessage, payloadHandler.sysfd, hok, hfd]⟩
  · cases hok : payloadHandler.ok (some ph) with
    | false =>
        exact ⟨some Err.EINVAL, [],
          by simp [PacketConn.SetDeadline, hok], by simp [PacketConn.SetDeadline, hok]⟩
    | true =>
        exact ⟨os.pDeadline 0 ph.c t, [OSCall.pDeadline 0 ph.c t],
          by simp [PacketConn.SetDeadline, hok], by simp [PacketConn.SetDeadline, hok]⟩
  · cases hok : payloadHandler.ok (some ph) with
    | false =>
        exact ⟨some Err.EINVAL, [],
          by simp [PacketConn.SetReadDeadline, hok],
          by simp [PacketConn.SetReadDeadline, hok]⟩
    | true =>
        exact ⟨os.pDeadline 1 ph.c t, [OSCall.pDeadline 1 ph.c t],
          by simp [PacketConn.SetReadDeadline, hok],
          by simp [PacketConn.SetReadDeadline, hok]⟩
  · cases hok : payloadHandler.ok (some ph) with
    | false =>
        exact ⟨some Err.EINVAL, [],
          by simp [PacketConn.SetWriteDeadline, hok],
          by simp [PacketConn.SetWriteDeadline, hok]⟩
    | true =>
        exact ⟨os.pDeadline 2 ph.c t, [OSCall.pDeadline 2 ph.c t],
          by simp [PacketConn.SetWriteDeadline, hok],
          by simp [PacketConn.SetWriteDeadline, hok]⟩
  · cases hok : payloadHandler.ok (some ph) with
    | false =>
        exact ⟨some Err.EINVAL, [],
          by simp [PacketConn.Close, hok], by simp [PacketConn.Close, hok]⟩
    | true =>
        exact ⟨os.pClose ph.c, [OSCall.pClose ph.c],
          by simp [PacketConn.Close, hok], by simp [PacketConn.Close, hok]⟩
  · cases hok : packetHandler.ok (some rh) with
    | false =>
        exact ⟨rh, some Err.EINVAL, [],
          by simp [RawConn.SetControlMessage, hok],
          by simp [RawConn.SetControlMessage, hok]⟩
    | true =>
        cases hfd : os.sysfdR rh.c with
        | error e =>
            exact ⟨rh, some e, [OSCall.sysfdR rh.c],
              by simp [RawConn.SetControlMessage, packetHandler.sysfd, hok, hfd],
              by simp [RawConn.SetControlMessage, packetHandler.sysfd, hok, hfd]⟩
        | ok fd =>
            exact ⟨{ rh with rawOpt := (setControlMessage os fd rh.rawOpt cf onv).1 },
              (setControlMessage os fd rh.rawOpt cf onv).2,
              [OSCall.sysfdR rh.c, OSCall.setOpt fd cf onv],
              by simp [RawConn.SetControlMessage, packetHandler.sysfd, hok, hfd],
              by simp [RawConn.SetControlMessage, packetHandler.sysfd, hok, hfd]⟩
  · cases hok : packetHandler.ok (some rh) with
    | false =>
        exact ⟨some Err.EINVAL, [],
          by simp [RawConn.SetDeadline, hok], by simp [RawConn.SetDeadline, hok]⟩
    | true =>
        exact ⟨os.rDeadline 0 rh.c t, [OSCall.rDeadline 0 rh.c t],
          by simp [RawConn.SetDeadline, hok], by simp [RawConn.SetDeadline, hok]⟩
  · cases hok : packetHandler.ok (some rh) with
    | false =>
        exact ⟨some Err.EINVAL, [],
          by simp [RawConn.SetReadDeadline, hok],
          by simp [RawConn.SetReadDeadline, hok]⟩
    | true =>
        exact ⟨os.rDeadline 1 rh.c t, [OSCall.rDeadline 1 rh.c t],
          by simp [RawConn.SetReadDeadline, hok],
          by simp [RawConn.SetReadDeadline, hok]⟩
  · cases hok : packetHandler.ok (some rh) with
    | false =>
        exact ⟨some Err.EINVAL, [],
          by simp [RawConn.SetWriteDeadline, hok],
          by simp [RawConn.SetWriteDeadline, hok]⟩
    | true =>
        exact ⟨os.rDeadline 2 rh.c t, [OSCall.rDeadline 2 rh.c t],
          by simp [RawConn.SetWriteDeadline, hok],
          by simp [RawConn.SetWriteDeadline, hok]⟩
  · cases hok : packetHandler.ok (some rh) with
    | false =>
        exact ⟨some Err.EINVAL, [],
          by simp [RawConn.Close, hok], by simp [RawConn.Close, hok]⟩
    | true =>
        exact ⟨os.rClose rh.c, [OSCall.rClose rh.c],
          by simp [RawConn.Close, hok], by simp [RawConn.Close, hok]⟩

/-- C4: on a ready or not-ready receiver, a failing SetControlMessage (at
the guard, at descriptor resolution or at the OS option update) leaves the
receiver, and in particular the recorded raw option state, exactly as it
was; only a successful call updates the persistent request set, and it
updates it to the applied flag set. -/
theorem SetControlMessage_state_only_on_success (os : OS) (pc : PacketConn)
    (rc : RawConn) (cf : ControlFlags) (onv : Bool) :
    ((PacketConn.SetControlMessage os pc cf onv).2.1 ≠ none →
      (PacketConn.SetControlMessage os pc cf onv).1 = pc) ∧
    ((PacketConn.SetControlMessage os pc cf onv).2.1 = none →
      ∃ fd, os.sysfdP pc.payloadHandler.c = Except.ok fd ∧
        os.setOpt fd cf onv = none ∧
        (PacketConn.SetControlMessage os pc cf onv).1 =
          { pc with payloadHandler :=
              { pc.payloadHandler with
                  rawOpt := applyControlFlags pc.payloadHandler.rawOpt cf onv } }) ∧
    ((RawConn.SetControlMessage os rc cf onv).2.1 ≠ none →
      (RawConn.SetControlMessage os rc cf onv).1 = rc) ∧
    ((RawConn.SetControlMessage os rc cf onv).2.1 = none →
      ∃ fd, os.sysfdR rc.packetHandler.c = Except.ok fd ∧
        os.setOpt fd cf onv = none ∧
        (RawConn.SetControlMessage os rc cf onv).1 =
          { rc with packetHandler :=
              { rc.packetHandler with
                  rawOpt := applyControlFlags rc.packetHandler.rawOpt cf onv } }) := by
  refine ⟨?_, ?_, ?_, ?_⟩
  · intro h
    cases hok : payloadHandler.ok (some pc.payloadHandler) with
    | false => simp [PacketConn.SetControlMessage, hok]
    | true =>
        cases hfd : os.sysfdP pc.payloadHandler.c with
        | error e =>
            simp [PacketConn.SetControlMessage, payloadHandler.sysfd, hok, hfd]
        | ok fd =>
            cases hso : os.setOpt fd cf onv with
            | none =>
                exfalso
                apply h
                simp [PacketConn.SetControlMessage, payloadHandler.sysfd,
                  setControlMessage, hok, hfd, hso]
            | some e =>
                simp [PacketConn.SetControlMessage, payloadHandler.sysfd,
                  setControlMessage, hok, hfd, hso]
  · intro h
    cases hok : payloadHandler.ok (some pc.payloadHandler) with
    | false => simp [PacketConn.SetControlMessage, hok] at h
    | true =>
        cases hfd : os.sysfdP pc.payloadHandler.c with
        | error e =>
            simp [PacketConn.SetControlMessage, payloadHandler.sysfd, hok, hfd] at h
        | ok fd =>
            cases hso : os.setOpt fd cf onv with
            | none =>
                refine ⟨fd, rfl, hso, ?_⟩
                simp [PacketConn.SetControlMessage, payloadHandler.sysfd,
                  setControlMessage, hok, hfd, hso]
            | some e =>
                simp [PacketConn.SetControlMessage, payloadHandler.sysfd,
                  setControlMessage, hok, hfd, hso] at h
  · intro h
    cases hok : packetHandler.ok (some rc.packetHandler) with
    | false => simp [RawConn.SetControlMessage, hok]
    | true =>
        cases hfd : os.sysfdR rc.packetHandler.c with
        | error e =>
            simp [RawConn.SetControlMessage, packetHandler.sysfd, hok, hfd]
        | ok fd =>
            cases hso : os.setOpt fd cf onv with
            | none =>
                exfalso
                apply h
                simp [RawConn.SetControlMessage, packetHandler.sysfd,
                  setControlMessage, hok, hfd, hso]
            | some e =>
                simp [RawConn.SetControlMessage, packetHandler.sysfd,
                  setControlMessage, hok, hfd, hso]
  · intro h
    cases hok : packetHandler.ok (some rc.packetHandler) with
    | false => simp [RawConn.SetControlMessage, hok] at h
    | true =>
        cases hfd : os.sysfdR rc.packetHandler.c with
        | error e =>
            simp [RawConn.SetControlMessage, packetHandler.sysfd, hok, hfd] at h
        | ok fd =>
            cases hso : os.setOpt fd cf onv with
            | none =>
                refine ⟨fd, rfl, hso, ?_⟩
                simp [RawConn.SetControlMessage, packetHandler.sysfd,
                  setControlMessage, hok, hfd, hso]
            | some e =>
                simp [RawConn.SetControlMessage, packetHandler.sysfd,
                  setControlMessage, hok, hfd, hso] at h

/-- C4 witness: with an OS collaborator whose option setter rejects the
request, SetControlMessage on the ready endpoints leaves the receiver (and
its recorded raw option state) unchanged. -/
theorem SetControlMessage_state_only_on_success_witness :
    (PacketConn.SetControlMessage osSetOptFail pcReady 4 true).1 = pcReady ∧
    (RawConn.SetControlMessage osSetOptFail rcReady 4 true).1 = rcReady :=
  ⟨(SetControlMessage_state_only_on_success osSetOptFail pcReady rcReady 4 true).1
      (by decide),
   (SetControlMessage_state_only_on_success osSetOptFail pcReady rcReady 4 true).2.2.1
      (by decide)⟩

/-- C5: on a ready PacketConn or RawConn, when descriptor resolution fails,
SetControlMessage returns that error unmodified, does not call the OS
option setter at all (the trace holds only the descriptor-resolution call),
and leaves the receiver unchanged. -/
theorem SetControlMessage_sysfd_error_short_circuit (os : OS) (pc : PacketConn)
    (rc : RawConn) (cf : ControlFlags) (onv : Bool) (e1 e2 : Err)
    (hok1 : payloadHandler.ok (some pc.payloadHandler) = true)
    (hfd1 : os.sysfdP pc.payloadHandler.c = Except.error e1)
    (hok2 : packetHandler.ok (some rc.packetHandler) = true)
    (hfd2 : os.sysfdR rc.packetHandler.c = Except.error e2) :
    PacketConn.SetControlMessage os pc cf onv =
      (pc, some e1, [OSCall.sysfdP pc.payloadHandler.c]) ∧
    RawConn.SetControlMessage os rc cf onv =
      (rc, some e2, [OSCall.sysfdR rc.packetHandler.c]) := by
  constructor
  · simp [PacketConn.SetControlMessage, payloadHandler.sysfd, hok1, hfd1]
  · simp [RawConn.SetControlMessage, packetHandler.sysfd, hok2, hfd2]

/-- C5 witness: with an OS collaborator whose descriptor resolution fails,
SetControlMessage on the ready endpoints surfaces exactly that error and
makes no option-setting call. -/
theorem SetControlMessage_sysfd_error_short_circuit_witness :
    PacketConn.SetControlMessage osSysfdFail pcReady 4 true =
      (pcReady, some (Err.os 7), [OSCall.sysfdP pcReady.payloadHandler.c]) ∧
    RawConn.SetControlMessage osSysfdFail rcReady 4 true =
      (rcReady, some (Err.os 8), [OSCall.sysfdR rcReady.packetHandler.c]) :=
  SetControlMessage_sysfd_error_short_circuit osSysfdFail pcReady rcReady 4 true
    (Err.os 7) (Err.os 8) rfl rfl rfl rfl

/-- C7: for every non-nil underlying connection, NewConn succeeds and
returns a ready Conn wrapping it; for every non-nil underlying connection of
a kind implementing the stream view, NewPacketConn succeeds and returns a
ready PacketConn whose handlers wrap it; neither has a failure outcome,
whereas NewRawConn does have a failure outcome in which no RawConn is
returned. -/
theorem NewConn_NewPacketConn_always_succeed (w u : IfaceVal)
    (hk : u.kind ≠ ConnKind.custom) :
    (NewConn (some w) = { genericOpt := { c := some w } } ∧
      genericOpt.ok (some (NewConn (some w)).genericOpt) = true) ∧
    (NewPacketConn (some u) =
        Outcome.ok
          { genericOpt := { c := some u }
            dgramOpt := { c := some u }
            payloadHandler := { c := some u, rawOpt := 0 } } ∧
      genericOpt.ok (some { c := some u }) = true ∧
      dgramOpt.ok (some { c := some u }) = true ∧
      payloadHandler.ok (some { c := some u, rawOpt := 0 }) = true) ∧
    (∃ e, NewRawConn osSysfdFail (some ipcVal) =
        Outcome.ok (none, some e, [OSCall.sysfdR (some 2)])) := by
  refine ⟨⟨rfl, rfl⟩, ⟨?_, rfl, rfl, rfl⟩, ⟨Err.os 8, rfl⟩⟩
  simp [NewPacketConn, assertNetConn, hk]

/-- C7 witness: at the concrete UDP connection value the cast precondition
holds and NewPacketConn returns the ready PacketConn wrapping it. -/
theorem NewConn_NewPacketConn_always_succeed_witness :
    udpVal.kind ≠ ConnKind.custom ∧
    NewPacketConn (some udpVal) =
      Outcome.ok
        { genericOpt := { c := some udpVal }
          dgramOpt := { c := some udpVal }
          payloadHandler := { c := some udpVal, rawOpt := 0 } } :=
  ⟨by decide,
   (NewConn_NewPacketConn_always_succeed udpVal udpVal (by decide)).2.1.1⟩

/-- C8: Close on a ready PacketConn or RawConn delegates to the wrapped
connection close and leaves every field of the receiver unchanged; hence
after Close the readiness guard still passes and a subsequent SetDeadline or
SetControlMessage delegates to the OS collaborator, surfacing its error
(e.g. the closed-connection error of descriptor resolution) rather than
failing a local guard. -/
theorem Close_keeps_handler_and_subsequent_calls_delegate (os os2 : OS)
    (pc : PacketConn) (rc : RawConn) (t : Time) (cf : ControlFlags) (onv : Bool)
    (h1 : payloadHandler.ok (some pc.payloadHandler) = true)
    (h2 : packetHandler.ok (some rc.packetHandler) = true) :
    PacketConn.Close os pc =
      (pc, os.pClose pc.payloadHandler.c, [OSCall.pClose pc.payloadHandler.c]) ∧
    payloadHandler.ok (some (PacketConn.Close os pc).1.payloadHandler) = true ∧
    PacketConn.SetDeadline os2 (PacketConn.Close os pc).1 t =
      ((PacketConn.Close os pc).1, os2.pDeadline 0 pc.payloadHandler.c t,
        [OSCall.pDeadline 0 pc.payloadHandler.c t]) ∧
    (∀ e, os2.sysfdP pc.payloadHandler.c = Except.error e →
      PacketConn.SetControlMessage os2 (PacketConn.Close os pc).1 cf onv =
        ((PacketConn.Close os pc).1, some e, [OSCall.sysfdP pc.payloadHandler.c])) ∧
    RawConn.Close os rc =
      (rc, os.rClose rc.packetHandler.c, [OSCall.rClose rc.packetHandler.c]) ∧
    packetHandler.ok (some (RawConn.Close os rc).1.packetHandler) = true ∧
    RawConn.SetDeadline os2 (RawConn.Close os rc).1 t =
      ((RawConn.Close os rc).1, os2.rDeadline 0 rc.packetHandler.c t,
        [OSCall.rDeadline 0 rc.packetHandler.c t]) ∧
    (∀ e, os2.sysfdR rc.packetHandler.c = Except.error e →
      RawConn.SetControlMessage os2 (RawConn.Close os rc).1 cf onv =
        ((RawConn.Close os rc).1, some e, [OSCall.sysfdR rc.packetHandler.c])) := by
  refine ⟨?_, ?_, ?_, ?_, ?_, ?_, ?_, ?_⟩
  · simp [PacketConn.Close, h1]
  · simp [PacketConn.Close, h1]
  · simp [PacketConn.Close, PacketConn.SetDeadline, h1]
  · intro e he
    simp [PacketConn.Close, PacketConn.SetControlMessage, payloadHandler.sysfd,
      h1, he]
  · simp [RawConn.Close, h2]
  · simp [RawConn.Close, h2]
  · simp [RawConn.Close, RawConn.SetDeadline, h2]
  · intro e he
    simp [RawConn.Close, RawConn.SetControlMessage, packetHandler.sysfd, h2, he]

/-- C8 witness: on a ready PacketConn, Close delegates to the wrapped close,
the guard still passes afterwards, and a subsequent SetControlMessage under
a collaborator whose descriptor resolution now fails surfaces that error. -/
theorem Close_keeps_handler_witness :
    PacketConn.Close osOK pcReady =
      (pcReady, none, [OSCall.pClose pcReady.payloadHandler.c]) ∧
    payloadHandler.ok (some (PacketConn.Close osOK pcReady).1.payloadHandler) = true ∧
    PacketConn.SetControlMessage osSysfdFail (PacketConn.Close osOK pcReady).1 4 true =
      ((PacketConn.Close osOK pcReady).1, some (Err.os 7),
        [OSCall.sysfdP pcReady.payloadHandler.c]) :=
  ⟨(Close_keeps_handler_and_subsequent_calls_delegate osOK osSysfdFail pcReady
      rcReady 3 4 true rfl rfl).1,
   (Close_keeps_handler_and_subsequent_calls_delegate osOK osSysfdFail pcReady
      rcReady 3 4 true rfl rfl).2.1,
   (Close_keeps_handler_and_subsequent_calls_delegate osOK osSysfdFail pcReady
      rcReady 3 4 true rfl rfl).2.2.2.1 (Err.os 7) rfl⟩

end IPv4
